import Mathlib

/-!
Verification of the TikTok profile scraper of this repository (src/app.py).

The scraping engine is the async generator scrape_tiktok_profile.  We model
it as a pure function over an environment describing what the browser run
observed: the navigation outcome, the embedded rehydration state found in
the page markup, the list of intercepted API payload bodies, and the
document heights measured by the scroll loop.

Python dictionaries coming from JSON are modelled as structures whose
fields are Option-valued: some models a present key, none an absent key.
A direct dictionary index (item["statsV2"]["playCount"], which raises
KeyError when the key is absent) is modelled as Option.bind, so that a
whole item normalization returns none exactly when the Python expression
building the yielded record raises.  A .get access with a default is
modelled with Option.getD / Option.bind, which never fails.

Exception propagation follows the source's try/except structure:
the embedded-state phase (lines 88-139) catches any exception at the
source level, so a raising item ends that phase but the run continues;
the intercepted-payload phase (lines 182-216) has no local handler, so a
raising item propagates to the run-level handler (lines 218-221), ending
all remaining payload processing; in both cases the code after the
try/except still saves the storage state (lines 224-227) and closes the
browser (line 229).
-/

namespace TikTok

/-- An engagement-count field of an emitted record: an integer count, or
the string sentinel "N/A" the code uses when the backing key is absent. -/
inductive CountVal
  | num (n : Nat)
  | na
deriving DecidableEq

/-- item.get(k, "N/A") for a count-valued key: value if present, sentinel
otherwise. -/
def CountVal.ofOpt (o : Option Nat) : CountVal :=
  match o with
  | some n => CountVal.num n
  | none => CountVal.na

/-- The statsV2 sub-dictionary. All three keys are read via direct
indexing in the source (lines 113, 117, 118 and 196, 200, 201). -/
structure RawStatsV2 where
  playCount : Option Nat
  collectCount : Option Nat
  repostCount : Option Nat
deriving DecidableEq

/-- The statistics sub-dictionary (HTML-shaped counts, lines 114-116). -/
structure RawStatistics where
  digg_count : Option Nat
  comment_count : Option Nat
  share_count : Option Nat
deriving DecidableEq

/-- The stats sub-dictionary (API-shaped counts, lines 197-199). -/
structure RawStats where
  diggCount : Option Nat
  commentCount : Option Nat
  shareCount : Option Nat
deriving DecidableEq

/-- The zoomCover map of a video sub-dictionary. v720 models the "720"
key (line 126), v480 the "480" key (line 208). -/
structure RawZoomCover where
  v720 : Option String
  v480 : Option String
deriving DecidableEq

/-- The video sub-dictionary (lines 126-127 and 208-209). -/
structure RawVideoMeta where
  zoomCover : Option RawZoomCover
  duration : Option Nat
deriving DecidableEq

/-- The author sub-dictionary (lines 107, 125 and 190, 207). -/
structure RawAuthor where
  uniqueId : Option String
  avatarThumb : Option String
deriving DecidableEq

/-- A raw item from either source.  aweme_id is the identifier key used
by the embedded-HTML phase (lines 103-104), id the one used by the
intercepted-payload phase (line 187).  Non-dictionary entries of an item
list, which both loops skip with a warning, are not modelled. -/
structure RawItem where
  aweme_id : Option String
  id : Option String
  desc : Option String
  createTime : Option Nat
  statsV2 : Option RawStatsV2
  statistics : Option RawStatistics
  stats : Option RawStats
  author : Option RawAuthor
  video : Option RawVideoMeta
deriving DecidableEq

/-- The canonical record yielded by the generator (the dictionary built
at lines 110-129 and 193-211). -/
structure Video where
  ID : String
  Description : String
  playCount : Nat
  Likes : CountVal
  Comments : CountVal
  Shares : CountVal
  bookmarks : Nat
  repostCount : Nat
  creation_date : Option Nat
  video_url : String
  creator_image : String
  video_cover : String
  video_duration : Nat
  date_extraction : String
deriving DecidableEq

/-- The video_url expression (lines 124 and 206): the f-string permalink
when author_unique_id is truthy (present and non-empty) and the id is not
the sentinel, otherwise "N/A". -/
def permalink (author_unique_id : Option String) (video_id : String) : String :=
  match author_unique_id with
  | some a =>
    if a = "" then "N/A"
    else if video_id = "N/A" then "N/A"
    else "https://www.tiktok.com/@" ++ a ++ "/video/" ++ video_id
  | none => "N/A"

/-- Building the yielded dictionary for an embedded-HTML item
(lines 110-129).  Every Option.bind on the left models a direct
dictionary index that raises KeyError when the key is absent; a none
result models the raised exception.  now is the wall-clock string of
datetime.now() (line 128), passed in as a parameter. -/
def normalizeEmbedded (now : String) (item : RawItem) : Option Video :=
  Option.bind item.statsV2 fun sv2 =>
  Option.bind sv2.playCount fun playCount =>
  Option.bind sv2.collectCount fun collectCount =>
  Option.bind sv2.repostCount fun repostCount =>
  Option.bind item.author fun author =>
  Option.bind author.avatarThumb fun avatarThumb =>
  Option.bind item.video fun vmeta =>
  Option.bind vmeta.zoomCover fun zoomCover =>
  Option.bind zoomCover.v720 fun cover =>
  Option.bind vmeta.duration fun duration =>
  some {
    ID := item.aweme_id.getD "N/A"
    Description := item.desc.getD "No description"
    playCount := playCount
    Likes := CountVal.ofOpt (Option.bind item.statistics RawStatistics.digg_count)
    Comments := CountVal.ofOpt (Option.bind item.statistics RawStatistics.comment_count)
    Shares := CountVal.ofOpt (Option.bind item.statistics RawStatistics.share_count)
    bookmarks := collectCount
    repostCount := repostCount
    creation_date := item.createTime
    video_url := permalink (Option.bind item.author RawAuthor.uniqueId) (item.aweme_id.getD "N/A")
    creator_image := avatarThumb
    video_cover := cover
    video_duration := duration
    date_extraction := now }

/-- Building the yielded dictionary for an intercepted-payload item
(lines 193-211).  Differences from the embedded branch: the identifier
comes from the id key, the optional counts come from stats with
camel-cased keys, and the cover is the "480" zoomCover variant. -/
def normalizeApi (now : String) (item : RawItem) : Option Video :=
  Option.bind item.statsV2 fun sv2 =>
  Option.bind sv2.playCount fun playCount =>
  Option.bind sv2.collectCount fun collectCount =>
  Option.bind sv2.repostCount fun repostCount =>
  Option.bind item.author fun author =>
  Option.bind author.avatarThumb fun avatarThumb =>
  Option.bind item.video fun vmeta =>
  Option.bind vmeta.zoomCover fun zoomCover =>
  Option.bind zoomCover.v480 fun cover =>
  Option.bind vmeta.duration fun duration =>
  some {
    ID := item.id.getD "N/A"
    Description := item.desc.getD "No description"
    playCount := playCount
    Likes := CountVal.ofOpt (Option.bind item.stats RawStats.diggCount)
    Comments := CountVal.ofOpt (Option.bind item.stats RawStats.commentCount)
    Shares := CountVal.ofOpt (Option.bind item.stats RawStats.shareCount)
    bookmarks := collectCount
    repostCount := repostCount
    creation_date := item.createTime
    video_url := permalink (Option.bind item.author RawAuthor.uniqueId) (item.id.getD "N/A")
    creator_image := avatarThumb
    video_cover := cover
    video_duration := duration
    date_extraction := now }

/-- The embedded-HTML item loop (lines 102-132).  An item without the
aweme_id key is skipped with a warning (line 131); an item whose id was
already seen is silently skipped (the guard at line 109); a raising item
ends the whole phase, keeping the records yielded so far and the seen
set as accumulated (the exception is caught at line 138).  Returns the
yielded records and the final seen set. -/
def embeddedLoop (now : String) : List RawItem → List String → List Video × List String
  | [], seen => ([], seen)
  | item :: rest, seen =>
    match item.aweme_id with
    | some video_id =>
      if video_id ∈ seen then
        embeddedLoop now rest seen
      else
        match normalizeEmbedded now item with
        | none => ([], seen)
        | some v =>
          let r := embeddedLoop now rest (video_id :: seen)
          (v :: r.1, r.2)
    | none => embeddedLoop now rest seen

/-- What the embedded-state document gave the run: either the
__UNIVERSAL_DATA_FOR_REHYDRATION__ script tag was absent (line 141), or
its JSON failed to decode (line 137), or it parsed, offering the primary
awemeList path (line 95) and the itemStruct fallback path (line 98). -/
inductive EmbeddedState
  | noScriptTag
  | malformedJson
  | parsed (awemeListPrimary : List RawItem) (itemStructFallback : List RawItem)
deriving DecidableEq

/-- The item list the embedded phase iterates: the primary path, or the
fallback when the primary is empty (lines 95-98); nothing when the tag
is absent or malformed. -/
def effectiveAwemeList : EmbeddedState → List RawItem
  | EmbeddedState.noScriptTag => []
  | EmbeddedState.malformedJson => []
  | EmbeddedState.parsed primary fallback =>
    if primary.isEmpty then fallback else primary

/-- The inner loop over one payload's itemList (lines 185-214).  The
third component is true when an item raised, which aborts not only this
payload but all remaining payloads (the exception propagates to the
run-level handler at line 220). -/
def apiItemLoop (now : String) : List RawItem → List String → List Video × List String × Bool
  | [], seen => ([], seen, false)
  | item :: rest, seen =>
    if item.id.getD "N/A" ∈ seen then
      apiItemLoop now rest seen
    else
      match normalizeApi now item with
      | none => ([], seen, true)
      | some v =>
        let r := apiItemLoop now rest (item.id.getD "N/A" :: seen)
        (v :: r.1, r.2.1, r.2.2)

/-- The loop over accumulated payloads (lines 182-216).  A payload is an
Option (List RawItem): none when the itemList key is absent; a payload
with an empty itemList is skipped like an absent one (the truthiness
test at line 183). -/
def apiPayloadLoop (now : String) : List (Option (List RawItem)) → List String → List Video × List String
  | [], seen => ([], seen)
  | p :: rest, seen =>
    match p with
    | some items =>
      if items.isEmpty then apiPayloadLoop now rest seen
      else
        let r := apiItemLoop now items seen
        if r.2.2 then (r.1, r.2.1)
        else
          let r2 := apiPayloadLoop now rest r.2.1
          (r.1 ++ r2.1, r2.2)
    | none => apiPayloadLoop now rest seen

/-- Outcome of page.goto(url, wait_until="networkidle", timeout=60000)
(line 78): normal completion, or the TimeoutError caught at line 218. -/
inductive NavOutcome
  | ok
  | timeout
deriving DecidableEq

/-- The timeout passed to page.goto at line 78, in milliseconds. -/
def navigationTimeoutMs : Nat := 60000

/-- What one browser run observed: the navigation outcome, the embedded
state found in the page, the intercepted payload bodies accumulated by
handle_route in completion order, and the document heights measured by
the scroll loop (heights i is the i-th evaluation of
document.body.scrollHeight at line 164). -/
structure Env where
  nav : NavOutcome
  embedded : EmbeddedState
  payloads : List (Option (List RawItem))
  heights : Nat → Nat
  now : String

/-- max_scrolls (line 161). -/
def max_scrolls : Nat := 3

/-- The scroll loop body (lines 163-173): while scroll_count is below
the bound, measure the height; stop if it equals the previous
measurement (initially -1); otherwise scroll, remember the measurement
and continue.  Returns the number of scroll-to-bottom actions
performed. -/
def scrollGo (height : Nat → Nat) : Nat → Int → Nat → Nat
  | _, _, 0 => 0
  | step, prev, r + 1 =>
    if (height step : Int) = prev then 0
    else 1 + scrollGo height (step + 1) (height step) r

/-- Number of scroll-to-bottom actions the scroll phase performs
(lines 160-173): previous_height starts at -1, at most max_scrolls
attempts. -/
def scrollCount (height : Nat → Nat) : Nat :=
  scrollGo height 0 (-1) max_scrolls

/-- The embedded-state extraction phase, started with an empty seen set
(lines 82-142). -/
def embeddedPhase (env : Env) : List Video × List String :=
  embeddedLoop env.now (effectiveAwemeList env.embedded) []

/-- The intercepted-payload extraction phase, continuing with the seen
set left by the embedded phase (lines 177-216). -/
def interceptedPhase (env : Env) : List Video × List String :=
  apiPayloadLoop env.now env.payloads (embeddedPhase env).2

/-- Observable outcome of one run of the generator. -/
structure RunResult where
  emitted : List Video
  scrollActions : Nat
  storageSaved : Bool
  browserClosed : Bool

/-- One run of scrape_tiktok_profile (lines 25-230).  On a navigation
timeout the TimeoutError is caught at line 218 before any extraction, so
nothing is emitted and no scroll is attempted; on either path the
storage state is saved whenever a path was provided (lines 224-227) and
the browser is closed (line 229).  url and headless_debug do not affect
the emitted-record logic and are carried only to mirror the source
signature. -/
def scrape_tiktok_profile (_url : String) (storage_state_path : Option String)
    (_headless_debug : Bool) (env : Env) : RunResult :=
  match env.nav with
  | NavOutcome.timeout =>
    { emitted := []
      scrollActions := 0
      storageSaved := storage_state_path.isSome
      browserClosed := true }
  | NavOutcome.ok =>
    { emitted := (embeddedPhase env).1 ++ (interceptedPhase env).1
      scrollActions := scrollCount env.heights
      storageSaved := storage_state_path.isSome
      browserClosed := true }

/-- The items the payload phase would iterate if nothing raised: the
itemLists of the accumulated payloads, in accumulation order, skipping
payloads whose itemList is absent or empty (lines 182-185). -/
def effectivePayloadItems : List (Option (List RawItem)) → List RawItem
  | [] => []
  | some items :: rest =>
    if items.isEmpty then effectivePayloadItems rest
    else items ++ effectivePayloadItems rest
  | none :: rest => effectivePayloadItems rest

/-! Concrete fixtures used by counterexamples and witnesses. -/

/-- A fully valid embedded-source item with identifier "a". -/
def itemGoodA : RawItem :=
  { aweme_id := some "a"
    id := none
    desc := some "da"
    createTime := some 11
    statsV2 := some { playCount := some 1, collectCount := some 2, repostCount := some 3 }
    statistics := some { digg_count := some 7, comment_count := some 8, share_count := some 9 }
    stats := none
    author := some { uniqueId := some "ua", avatarThumb := some "ava" }
    video := some { zoomCover := some { v720 := some "a720", v480 := some "a480" }
                    duration := some 12 } }

/-- The record the embedded branch yields for itemGoodA at time "t". -/
def videoA : Video :=
  { ID := "a"
    Description := "da"
    playCount := 1
    Likes := CountVal.num 7
    Comments := CountVal.num 8
    Shares := CountVal.num 9
    bookmarks := 2
    repostCount := 3
    creation_date := some 11
    video_url := "https://www.tiktok.com/@ua/video/a"
    creator_image := "ava"
    video_cover := "a720"
    video_duration := 12
    date_extraction := "t" }

/-- A video sub-dictionary with no zoomCover key at all. -/
def badVideoMeta : RawVideoMeta :=
  { zoomCover := none, duration := some 5 }

/-- An embedded-source item with identifier "b" whose cover image is
missing: indexing zoomCover raises KeyError. -/
def itemBadCover : RawItem :=
  { aweme_id := some "b"
    id := none
    desc := some "db"
    createTime := some 21
    statsV2 := some { playCount := some 1, collectCount := some 2, repostCount := some 3 }
    statistics := some { digg_count := some 7, comment_count := some 8, share_count := some 9 }
    stats := none
    author := some { uniqueId := some "ub", avatarThumb := some "avb" }
    video := some badVideoMeta }

/-- A fully valid embedded-source item with identifier "c". -/
def itemGoodC : RawItem :=
  { aweme_id := some "c"
    id := none
    desc := some "dc"
    createTime := some 31
    statsV2 := some { playCount := some 1, collectCount := some 2, repostCount := some 3 }
    statistics := some { digg_count := some 7, comment_count := some 8, share_count := some 9 }
    stats := none
    author := some { uniqueId := some "uc", avatarThumb := some "avc" }
    video := some { zoomCover := some { v720 := some "c720x", v480 := some "c480x" }
                    duration := some 12 } }

/-- An embedded-source item that is complete except for the statsV2
sub-dictionary backing play_count, bookmarks and repost_count. -/
def itemNoStatsV2 : RawItem :=
  { aweme_id := some "x"
    id := none
    desc := some "dx"
    createTime := some 41
    statsV2 := none
    statistics := some { digg_count := some 7, comment_count := some 8, share_count := some 9 }
    stats := some { diggCount := some 4, commentCount := some 5, shareCount := some 6 }
    author := some { uniqueId := some "ux", avatarThumb := some "avx" }
    video := some { zoomCover := some { v720 := some "x720", v480 := some "x480" }
                    duration := some 12 } }

/-- An intercepted-payload item with no id key; every other field the
API branch needs is present. -/
def itemNoId : RawItem :=
  { aweme_id := none
    id := none
    desc := some "d"
    createTime := some 1
    statsV2 := some { playCount := some 1, collectCount := some 2, repostCount := some 3 }
    statistics := none
    stats := some { diggCount := some 4, commentCount := some 5, shareCount := some 6 }
    author := some { uniqueId := some "u", avatarThumb := some "av" }
    video := some { zoomCover := some { v720 := some "c7", v480 := some "c4" }
                    duration := some 9 } }

/-- The record the API branch yields for itemNoId at time "t". -/
def videoNoId : Video :=
  { ID := "N/A"
    Description := "d"
    playCount := 1
    Likes := CountVal.num 4
    Comments := CountVal.num 5
    Shares := CountVal.num 6
    bookmarks := 2
    repostCount := 3
    creation_date := some 1
    video_url := "N/A"
    creator_image := "av"
    video_cover := "c4"
    video_duration := 9
    date_extraction := "t" }

/-- The embedded-source occurrence of video "v1": it carries a "720"
cover variant, but its missing statsV2 makes normalization raise. -/
def itemBoth720 : RawItem :=
  { aweme_id := some "v1"
    id := none
    desc := some "dv"
    createTime := some 51
    statsV2 := none
    statistics := none
    stats := none
    author := some { uniqueId := some "uv", avatarThumb := some "avv" }
    video := some { zoomCover := some { v720 := some "c720", v480 := some "c480" }
                    duration := some 9 } }

/-- The intercepted-payload occurrence of the same video "v1", fully
valid. -/
def itemBoth480 : RawItem :=
  { aweme_id := none
    id := some "v1"
    desc := some "dv"
    createTime := some 51
    statsV2 := some { playCount := some 1, collectCount := some 2, repostCount := some 3 }
    statistics := none
    stats := some { diggCount := some 4, commentCount := some 5, shareCount := some 6 }
    author := some { uniqueId := some "uv", avatarThumb := some "avv" }
    video := some { zoomCover := some { v720 := some "c720", v480 := some "c480" }
                    duration := some 9 } }

/-- An embedded-shaped item whose likes live under statistics.digg_count. -/
def htmlShapedItem (n : Nat) : RawItem :=
  { itemGoodA with
      statistics := some { digg_count := some n, comment_count := some 8, share_count := some 9 } }

/-- An API-shaped item whose likes live under stats.diggCount. -/
def apiShapedItem (n : Nat) : RawItem :=
  { aweme_id := none
    id := some "a"
    desc := some "da"
    createTime := some 11
    statsV2 := some { playCount := some 1, collectCount := some 2, repostCount := some 3 }
    statistics := none
    stats := some { diggCount := some n, commentCount := some 5, shareCount := some 6 }
    author := some { uniqueId := some "ua", avatarThumb := some "ava" }
    video := some { zoomCover := some { v720 := some "a720", v480 := some "a480" }
                    duration := some 12 } }

/-- An embedded-shaped item missing its statistics sub-dictionary. -/
def itemNoStatistics : RawItem :=
  { itemGoodA with statistics := none }

/-- An API-shaped item missing its stats sub-dictionary. -/
def itemNoStats : RawItem :=
  { apiShapedItem 4 with stats := none }

/-- Run environment for the fail-soft counterexample: a good item, an
item missing its cover, then another good item, all embedded. -/
def envC2 : Env :=
  { nav := NavOutcome.ok
    embedded := EmbeddedState.parsed [itemGoodA, itemBadCover, itemGoodC] []
    payloads := []
    heights := fun _ => 0
    now := "t" }

/-- Run environment whose embedded state holds only itemNoStatsV2. -/
def envC3 : Env :=
  { nav := NavOutcome.ok
    embedded := EmbeddedState.parsed [itemNoStatsV2] []
    payloads := []
    heights := fun _ => 0
    now := "t" }

/-- Run environment where video "v1" appears in both sources and the
embedded occurrence raises. -/
def envC10 : Env :=
  { nav := NavOutcome.ok
    embedded := EmbeddedState.parsed [itemBoth720] []
    payloads := [some [itemBoth480]]
    heights := fun _ => 0
    now := "t" }

/-- A small environment with one embedded item and one payload item. -/
def envOk : Env :=
  { nav := NavOutcome.ok
    embedded := EmbeddedState.parsed [itemGoodA] []
    payloads := [some [itemNoId]]
    heights := fun _ => 0
    now := "t" }

/-- An environment whose navigation timed out. -/
def envTimeout : Env :=
  { nav := NavOutcome.timeout
    embedded := EmbeddedState.noScriptTag
    payloads := []
    heights := fun _ => 0
    now := "t" }

/-- An environment whose measured document height never changes. -/
def envFlat : Env :=
  { nav := NavOutcome.ok
    embedded := EmbeddedState.noScriptTag
    payloads := []
    heights := fun _ => 7
    now := "t" }

/-! Lemmas about the normalizers. -/

/-- A successful embedded normalization takes its identifier from the
aweme_id key and its cover from the "720" zoomCover variant. -/
lemma normalizeEmbedded_some (now : String) (item : RawItem) (v : Video)
    (h : normalizeEmbedded now item = some v) :
    v.ID = item.aweme_id.getD "N/A" ∧
    Option.bind (Option.bind item.video RawVideoMeta.zoomCover) RawZoomCover.v720
      = some v.video_cover := by
  simp only [normalizeEmbedded, Option.bind_eq_some, Option.some.injEq] at h
  obtain ⟨sv2, hsv, pc, hpc, cc, hcc, rc, hrc, au, hau, av, hav, vm, hvm, zc, hzc,
    cv, hcv, du, hdu, hv⟩ := h
  subst hv
  refine ⟨rfl, ?_⟩
  rw [hvm]
  simp [hzc, hcv]

/-- A successful API normalization takes its identifier from the id key
(defaulting to "N/A") and its cover from the "480" zoomCover variant. -/
lemma normalizeApi_some (now : String) (item : RawItem) (v : Video)
    (h : normalizeApi now item = some v) :
    v.ID = item.id.getD "N/A" ∧
    Option.bind (Option.bind item.video RawVideoMeta.zoomCover) RawZoomCover.v480
      = some v.video_cover := by
  simp only [normalizeApi, Option.bind_eq_some, Option.some.injEq] at h
  obtain ⟨sv2, hsv, pc, hpc, cc, hcc, rc, hrc, au, hau, av, hav, vm, hvm, zc, hzc,
    cv, hcv, du, hdu, hv⟩ := h
  subst hv
  refine ⟨rfl, ?_⟩
  rw [hvm]
  simp [hzc, hcv]

/-- A missing statsV2 key makes the embedded branch raise. -/
lemma normalizeEmbedded_statsV2_none (now : String) (item : RawItem)
    (h : item.statsV2 = none) : normalizeEmbedded now item = none := by
  simp [normalizeEmbedded, h]

/-- A missing zoomCover key makes the embedded branch raise. -/
lemma normalizeEmbedded_zoomCover_none (now : String) (item : RawItem) (vm : RawVideoMeta)
    (h1 : item.video = some vm) (h2 : vm.zoomCover = none) :
    normalizeEmbedded now item = none := by
  cases hn : normalizeEmbedded now item with
  | none => rfl
  | some v =>
    have h := (normalizeEmbedded_some now item v hn).2
    rw [h1] at h
    simp [h2] at h

/-! Lemmas about the extraction loops. -/

/-- The embedded loop only ever grows the seen set. -/
lemma embeddedLoop_seen_mono (now : String) :
    ∀ (items : List RawItem) (seen : List String) (x : String),
      x ∈ seen → x ∈ (embeddedLoop now items seen).2 := by
  intro items
  induction items with
  | nil => intro seen x hx; simpa [embeddedLoop] using hx
  | cons item rest ih =>
    intro seen x hx
    cases ha : item.aweme_id with
    | none => simpa [embeddedLoop, ha] using ih seen x hx
    | some vid =>
      by_cases hmem : vid ∈ seen
      · simpa [embeddedLoop, ha, hmem] using ih seen x hx
      · cases hn : normalizeEmbedded now item with
        | none => simpa [embeddedLoop, ha, hmem, hn] using hx
        | some v =>
          simpa [embeddedLoop, ha, hmem, hn] using
            ih (vid :: seen) x (List.mem_cons_of_mem _ hx)

/-- Records yielded by the embedded loop have pairwise distinct
identifiers, none of which was in the incoming seen set, and all of
which are recorded in the outgoing seen set. -/
lemma embeddedLoop_invariant (now : String) :
    ∀ (items : List RawItem) (seen : List String),
      ((embeddedLoop now items seen).1.map Video.ID).Nodup ∧
      ∀ w ∈ (embeddedLoop now items seen).1,
        w.ID ∉ seen ∧ w.ID ∈ (embeddedLoop now items seen).2 := by
  intro items
  induction items with
  | nil => intro seen; simp [embeddedLoop]
  | cons item rest ih =>
    intro seen
    cases ha : item.aweme_id with
    | none => simpa [embeddedLoop, ha] using ih seen
    | some vid =>
      by_cases hmem : vid ∈ seen
      · simpa [embeddedLoop, ha, hmem] using ih seen
      · cases hn : normalizeEmbedded now item with
        | none => simp [embeddedLoop, ha, hmem, hn]
        | some v =>
          have hstep : embeddedLoop now (item :: rest) seen
              = (v :: (embeddedLoop now rest (vid :: seen)).1,
                 (embeddedLoop now rest (vid :: seen)).2) := by
            simp [embeddedLoop, ha, hmem, hn]
          have hid : v.ID = vid := by
            have hi := (normalizeEmbedded_some now item v hn).1
            rw [ha] at hi
            simpa using hi
          have IH := ih (vid :: seen)
          constructor
          · rw [hstep]
            simp only [List.map_cons]
            refine List.nodup_cons.mpr ⟨?_, IH.1⟩
            intro hmem2
            obtain ⟨w, hw, hwid⟩ := List.mem_map.mp hmem2
            have hnotin := (IH.2 w hw).1
            rw [hwid, hid] at hnotin
            exact hnotin (List.mem_cons_self vid seen)
          · intro w hw
            rw [hstep] at hw
            rcases List.mem_cons.mp hw with rfl | hw2
            · rw [hstep]
              refine ⟨?_, ?_⟩
              · rw [hid]; exact hmem
              · rw [hid]
                exact embeddedLoop_seen_mono now rest (vid :: seen) vid
                  (List.mem_cons_self _ _)
            · rw [hstep]
              exact ⟨fun hc => (IH.2 w hw2).1 (List.mem_cons_of_mem _ hc),
                (IH.2 w hw2).2⟩

/-- The API item loop only ever grows the seen set. -/
lemma apiItemLoop_seen_mono (now : String) :
    ∀ (items : List RawItem) (seen : List String) (x : String),
      x ∈ seen → x ∈ (apiItemLoop now items seen).2.1 := by
  intro items
  induction items with
  | nil => intro seen x hx; simpa [apiItemLoop] using hx
  | cons item rest ih =>
    intro seen x hx
    by_cases hmem : item.id.getD "N/A" ∈ seen
    · simpa [apiItemLoop, hmem] using ih seen x hx
    · cases hn : normalizeApi now item with
      | none => simpa [apiItemLoop, hmem, hn] using hx
      | some v =>
        simpa [apiItemLoop, hmem, hn] using
          ih (item.id.getD "N/A" :: seen) x (List.mem_cons_of_mem _ hx)

/-- Same invariant for the API item loop. -/
lemma apiItemLoop_invariant (now : String) :
    ∀ (items : List RawItem) (seen : List String),
      ((apiItemLoop now items seen).1.map Video.ID).Nodup ∧
      ∀ w ∈ (apiItemLoop now items seen).1,
        w.ID ∉ seen ∧ w.ID ∈ (apiItemLoop now items seen).2.1 := by
  intro items
  induction items with
  | nil => intro seen; simp [apiItemLoop]
  | cons item rest ih =>
    intro seen
    by_cases hmem : item.id.getD "N/A" ∈ seen
    · simpa [apiItemLoop, hmem] using ih seen
    · cases hn : normalizeApi now item with
      | none => simp [apiItemLoop, hmem, hn]
      | some v =>
        have hstep : apiItemLoop now (item :: rest) seen
            = (v :: (apiItemLoop now rest (item.id.getD "N/A" :: seen)).1,
               (apiItemLoop now rest (item.id.getD "N/A" :: seen)).2.1,
               (apiItemLoop now rest (item.id.getD "N/A" :: seen)).2.2) := by
          simp [apiItemLoop, hmem, hn]
        have hid : v.ID = item.id.getD "N/A" := (normalizeApi_some now item v hn).1
        have IH := ih (item.id.getD "N/A" :: seen)
        constructor
        · rw [hstep]
          simp only [List.map_cons]
          refine List.nodup_cons.mpr ⟨?_, IH.1⟩
          intro hmem2
          obtain ⟨w, hw, hwid⟩ := List.mem_map.mp hmem2
          have hnotin := (IH.2 w hw).1
          rw [hwid, hid] at hnotin
          exact hnotin (List.mem_cons_self _ seen)
        · intro w hw
          rw [hstep] at hw
          rcases List.mem_cons.mp hw with rfl | hw2
          · rw [hstep]
            refine ⟨?_, ?_⟩
            · rw [hid]; exact hmem
            · rw [hid]
              exact apiItemLoop_seen_mono now rest (item.id.getD "N/A" :: seen) _
                (List.mem_cons_self _ _)
          · rw [hstep]
            exact ⟨fun hc => (IH.2 w hw2).1 (List.mem_cons_of_mem _ hc),
              (IH.2 w hw2).2⟩

/-- The payload loop only ever grows the seen set. -/
lemma apiPayloadLoop_seen_mono (now : String) :
    ∀ (ps : List (Option (List RawItem))) (seen : List String) (x : String),
      x ∈ seen → x ∈ (apiPayloadLoop now ps seen).2 := by
  intro ps
  induction ps with
  | nil => intro seen x hx; simpa [apiPayloadLoop] using hx
  | cons p rest ih =>
    intro seen x hx
    cases p with
    | none => simpa [apiPayloadLoop] using ih seen x hx
    | some items =>
      by_cases hemp : items.isEmpty
      · simpa [apiPayloadLoop, hemp] using ih seen x hx
      · cases hab : (apiItemLoop now items seen).2.2
        · simpa [apiPayloadLoop, hemp, hab] using
            ih (apiItemLoop now items seen).2.1 x
              (apiItemLoop_seen_mono now items seen x hx)
        · simpa [apiPayloadLoop, hemp, hab] using
            apiItemLoop_seen_mono now items seen x hx

/-- Same invariant for the payload loop. -/
lemma apiPayloadLoop_invariant (now : String) :
    ∀ (ps : List (Option (List RawItem))) (seen : List String),
      ((apiPayloadLoop now ps seen).1.map Video.ID).Nodup ∧
      ∀ w ∈ (apiPayloadLoop now ps seen).1,
        w.ID ∉ seen ∧ w.ID ∈ (apiPayloadLoop now ps seen).2 := by
  intro ps
  induction ps with
  | nil => intro seen; simp [apiPayloadLoop]
  | cons p rest ih =>
    intro seen
    cases p with
    | none => simpa [apiPayloadLoop] using ih seen
    | some items =>
      by_cases hemp : items.isEmpty
      · simpa [apiPayloadLoop, hemp] using ih seen
      · cases hab : (apiItemLoop now items seen).2.2
        · -- no exception: this payload's records, then the remaining payloads
          have hstep : apiPayloadLoop now (some items :: rest) seen
              = ((apiItemLoop now items seen).1
                  ++ (apiPayloadLoop now rest (apiItemLoop now items seen).2.1).1,
                 (apiPayloadLoop now rest (apiItemLoop now items seen).2.1).2) := by
            simp [apiPayloadLoop, hemp, hab]
          have HI := apiItemLoop_invariant now items seen
          have IH := ih (apiItemLoop now items seen).2.1
          constructor
          · rw [hstep]
            simp only [List.map_append]
            refine List.nodup_append.mpr ⟨HI.1, IH.1, ?_⟩
            intro a ha hb
            obtain ⟨w1, hw1, hwid1⟩ := List.mem_map.mp ha
            obtain ⟨w2, hw2, hwid2⟩ := List.mem_map.mp hb
            have h1 := (HI.2 w1 hw1).2
            have h2 := (IH.2 w2 hw2).1
            rw [hwid1] at h1
            rw [hwid2] at h2
            exact h2 h1
          · intro w hw
            rw [hstep] at hw
            rcases List.mem_append.mp hw with hw1 | hw2
            · rw [hstep]
              refine ⟨(HI.2 w hw1).1, ?_⟩
              exact apiPayloadLoop_seen_mono now rest _ _ (HI.2 w hw1).2
            · rw [hstep]
              refine ⟨?_, (IH.2 w hw2).2⟩
              intro hc
              exact (IH.2 w hw2).1 (apiItemLoop_seen_mono now items seen _ hc)
        · -- an item raised: everything stops with this payload's prefix
          have hstep : apiPayloadLoop now (some items :: rest) seen
              = ((apiItemLoop now items seen).1, (apiItemLoop now items seen).2.1) := by
            simp [apiPayloadLoop, hemp, hab]
          have HI := apiItemLoop_invariant now items seen
          rw [hstep]
          exact ⟨HI.1, fun w hw => HI.2 w hw⟩

/-- Helper: the identifiers of all records emitted by one run are
pairwise distinct. -/
lemma emitted_ids_nodup (url : String) (path : Option String) (hd : Bool) (env : Env) :
    ((scrape_tiktok_profile url path hd env).emitted.map Video.ID).Nodup := by
  cases hnav : env.nav with
  | timeout => simp [scrape_tiktok_profile, hnav]
  | ok =>
    simp only [scrape_tiktok_profile, hnav, List.map_append]
    refine List.nodup_append.mpr ⟨?_, ?_, ?_⟩
    · exact (embeddedLoop_invariant env.now (effectiveAwemeList env.embedded) []).1
    · exact (apiPayloadLoop_invariant env.now env.payloads (embeddedPhase env).2).1
    · intro a ha hb
      obtain ⟨w1, hw1, hwid1⟩ := List.mem_map.mp ha
      obtain ⟨w2, hw2, hwid2⟩ := List.mem_map.mp hb
      have h1 := ((embeddedLoop_invariant env.now (effectiveAwemeList env.embedded) []).2
        w1 hw1).2
      have h2 := ((apiPayloadLoop_invariant env.now env.payloads (embeddedPhase env).2).2
        w2 hw2).1
      rw [hwid1] at h1
      rw [hwid2] at h2
      exact h2 h1

/-- The identifiers yielded by the embedded loop form an
order-preserving subsequence of the item-list identifiers. -/
lemma embeddedLoop_sublist (now : String) :
    ∀ (items : List RawItem) (seen : List String),
      List.Sublist ((embeddedLoop now items seen).1.map Video.ID)
        (items.map fun it => it.aweme_id.getD "N/A") := by
  intro items
  induction items with
  | nil => intro seen; simp [embeddedLoop]
  | cons item rest ih =>
    intro seen
    cases ha : item.aweme_id with
    | none =>
      simp only [embeddedLoop, ha, List.map_cons]
      exact (ih seen).cons _
    | some vid =>
      by_cases hmem : vid ∈ seen
      · simp only [embeddedLoop, ha, hmem, if_true, List.map_cons]
        exact (ih seen).cons _
      · cases hn : normalizeEmbedded now item with
        | none => simp [embeddedLoop, ha, hmem, hn]
        | some v =>
          have hid : v.ID = vid := by
            have hi := (normalizeEmbedded_some now item v hn).1
            rw [ha] at hi
            simpa using hi
          simp only [embeddedLoop, ha, hmem, if_false, hn, List.map_cons, hid]
          exact (ih (vid :: seen)).cons₂ _

/-- The identifiers yielded by the API item loop form an
order-preserving subsequence of the item-list identifiers. -/
lemma apiItemLoop_sublist (now : String) :
    ∀ (items : List RawItem) (seen : List String),
      List.Sublist ((apiItemLoop now items seen).1.map Video.ID)
        (items.map fun it => it.id.getD "N/A") := by
  intro items
  induction items with
  | nil => intro seen; simp [apiItemLoop]
  | cons item rest ih =>
    intro seen
    by_cases hmem : item.id.getD "N/A" ∈ seen
    · simp only [apiItemLoop, hmem, if_true, List.map_cons]
      exact (ih seen).cons _
    · cases hn : normalizeApi now item with
      | none => simp [apiItemLoop, hmem, hn]
      | some v =>
        have hid : v.ID = item.id.getD "N/A" := (normalizeApi_some now item v hn).1
        simp only [apiItemLoop, hmem, if_false, hn, List.map_cons, hid]
        exact (ih (item.id.getD "N/A" :: seen)).cons₂ _

/-- The identifiers yielded by the payload loop form an order-preserving
subsequence of the flattened effective payload item identifiers. -/
lemma apiPayloadLoop_sublist (now : String) :
    ∀ (ps : List (Option (List RawItem))) (seen : List String),
      List.Sublist ((apiPayloadLoop now ps seen).1.map Video.ID)
        ((effectivePayloadItems ps).map fun it => it.id.getD "N/A") := by
  intro ps
  induction ps with
  | nil => intro seen; simp [apiPayloadLoop, effectivePayloadItems]
  | cons p rest ih =>
    intro seen
    cases p with
    | none =>
      simp only [apiPayloadLoop, effectivePayloadItems]
      exact ih seen
    | some items =>
      by_cases hemp : items.isEmpty
      · simp only [apiPayloadLoop, effectivePayloadItems, hemp, if_true]
        exact ih seen
      · cases hab : (apiItemLoop now items seen).2.2
        · have hstep : (apiPayloadLoop now (some items :: rest) seen).1
              = (apiItemLoop now items seen).1
                ++ (apiPayloadLoop now rest (apiItemLoop now items seen).2.1).1 := by
            simp [apiPayloadLoop, hemp, hab]
          rw [hstep, show effectivePayloadItems (some items :: rest)
              = items ++ effectivePayloadItems rest by
            simp [effectivePayloadItems, hemp]]
          rw [List.map_append, List.map_append]
          exact (apiItemLoop_sublist now items seen).append (ih _)
        · have hstep : (apiPayloadLoop now (some items :: rest) seen).1
              = (apiItemLoop now items seen).1 := by
            simp [apiPayloadLoop, hemp, hab]
          rw [hstep, show effectivePayloadItems (some items :: rest)
              = items ++ effectivePayloadItems rest by
            simp [effectivePayloadItems, hemp]]
          rw [List.map_append]
          exact (apiItemLoop_sublist now items seen).trans (List.sublist_append_left _ _)

/-- Every record the embedded loop yields originates from an item of the
list whose aweme_id is the record's identifier and whose "720" zoomCover
variant is the record's cover. -/
lemma embeddedLoop_cover (now : String) :
    ∀ (items : List RawItem) (seen : List String) (w : Video),
      w ∈ (embeddedLoop now items seen).1 →
      ∃ it, it ∈ items ∧ it.aweme_id = some w.ID ∧
        Option.bind (Option.bind it.video RawVideoMeta.zoomCover) RawZoomCover.v720
          = some w.video_cover := by
  intro items
  induction items with
  | nil => intro seen w hw; simp [embeddedLoop] at hw
  | cons item rest ih =>
    intro seen w hw
    cases ha : item.aweme_id with
    | none =>
      rw [show embeddedLoop now (item :: rest) seen = embeddedLoop now rest seen by
        simp [embeddedLoop, ha]] at hw
      obtain ⟨it, h1, h2, h3⟩ := ih seen w hw
      exact ⟨it, List.mem_cons_of_mem _ h1, h2, h3⟩
    | some vid =>
      by_cases hmem : vid ∈ seen
      · rw [show embeddedLoop now (item :: rest) seen = embeddedLoop now rest seen by
          simp [embeddedLoop, ha, hmem]] at hw
        obtain ⟨it, h1, h2, h3⟩ := ih seen w hw
        exact ⟨it, List.mem_cons_of_mem _ h1, h2, h3⟩
      · cases hn : normalizeEmbedded now item with
        | none =>
          rw [show embeddedLoop now (item :: rest) seen = ([], seen) by
            simp [embeddedLoop, ha, hmem, hn]] at hw
          simp at hw
        | some v =>
          rw [show embeddedLoop now (item :: rest) seen
              = (v :: (embeddedLoop now rest (vid :: seen)).1,
                 (embeddedLoop now rest (vid :: seen)).2) by
            simp [embeddedLoop, ha, hmem, hn]] at hw
          rcases List.mem_cons.mp hw with rfl | hw2
          · refine ⟨item, List.mem_cons_self _ _, ?_, ?_⟩
            · rw [ha, (normalizeEmbedded_some now item w hn).1, ha]
              rfl
            · exact (normalizeEmbedded_some now item w hn).2
          · obtain ⟨it, h1, h2, h3⟩ := ih (vid :: seen) w hw2
            exact ⟨it, List.mem_cons_of_mem _ h1, h2, h3⟩

/-- Every record the API item loop yields originates from an item of the
list whose defaulted id is the record's identifier and whose "480"
zoomCover variant is the record's cover. -/
lemma apiItemLoop_cover (now : String) :
    ∀ (items : List RawItem) (seen : List String) (w : Video),
      w ∈ (apiItemLoop now items seen).1 →
      ∃ it, it ∈ items ∧ it.id.getD "N/A" = w.ID ∧
        Option.bind (Option.bind it.video RawVideoMeta.zoomCover) RawZoomCover.v480
          = some w.video_cover := by
  intro items
  induction items with
  | nil => intro seen w hw; simp [apiItemLoop] at hw
  | cons item rest ih =>
    intro seen w hw
    by_cases hmem : item.id.getD "N/A" ∈ seen
    · rw [show apiItemLoop now (item :: rest) seen = apiItemLoop now rest seen by
        simp [apiItemLoop, hmem]] at hw
      obtain ⟨it, h1, h2, h3⟩ := ih seen w hw
      exact ⟨it, List.mem_cons_of_mem _ h1, h2, h3⟩
    · cases hn : normalizeApi now item with
      | none =>
        rw [show apiItemLoop now (item :: rest) seen = ([], seen, true) by
          simp [apiItemLoop, hmem, hn]] at hw
        simp at hw
      | some v =>
        rw [show apiItemLoop now (item :: rest) seen
            = (v :: (apiItemLoop now rest (item.id.getD "N/A" :: seen)).1,
               (apiItemLoop now rest (item.id.getD "N/A" :: seen)).2.1,
               (apiItemLoop now rest (item.id.getD "N/A" :: seen)).2.2) by
          simp [apiItemLoop, hmem, hn]] at hw
        rcases List.mem_cons.mp hw with rfl | hw2
        · exact ⟨item, List.mem_cons_self _ _,
            ((normalizeApi_some now item w hn).1).symm,
            (normalizeApi_some now item w hn).2⟩
        · obtain ⟨it, h1, h2, h3⟩ := ih (item.id.getD "N/A" :: seen) w hw2
          exact ⟨it, List.mem_cons_of_mem _ h1, h2, h3⟩

/-- Filtering a record list on one identifier counts that identifier's
occurrences among the mapped identifiers. -/
lemma length_filter_ID_eq_count (l : List Video) (s : String) :
    (l.filter fun w => w.ID = s).length = (l.map Video.ID).count s := by
  induction l with
  | nil => rfl
  | cons w t ih =>
    by_cases h : w.ID = s
    · simp [List.filter_cons, h, ih, List.count_cons]
    · simp [List.filter_cons, h, ih, List.count_cons]

/-! Lemmas about the scroll loop. -/

/-- One unfolding of the bounded scroll loop at its actual bound of 3:
the first measurement is compared against the initial -1, each later
one against its predecessor. -/
lemma scrollCount_unfold (h : Nat → Nat) :
    scrollCount h =
      if (h 0 : Int) = -1 then 0
      else 1 + (if (h 1 : Int) = (h 0 : Int) then 0
        else 1 + (if (h 2 : Int) = (h 1 : Int) then 0
          else 1 + 0)) := rfl

/-! The claims. -/

/-- Claim C1: for every run of scrape_tiktok_profile, no two records
emitted by the stream share an ID — an identifier is emitted at most
once regardless of how many sources contained it, the occurrence kept
being the first one processed. -/
theorem dedup_invariant (url : String) (path : Option String) (hd : Bool) (env : Env) :
    ((scrape_tiktok_profile url path hd env).emitted.map Video.ID).Nodup ∧
    ∀ x : String, ((scrape_tiktok_profile url path hd env).emitted.map Video.ID).count x ≤ 1 :=
  ⟨emitted_ids_nodup url path hd env,
   fun x => List.nodup_iff_count_le_one.mp (emitted_ids_nodup url path hd env) x⟩

/-- Claim C2, counterexample: in a run whose embedded state holds a good
item "a", an item "b" missing its cover image and a good item "c", the
claim promises that "c" is still emitted; the code emits only "a",
because the KeyError raised while building "b" aborts the whole embedded
loop (it is caught at the source level, line 138, not per item). -/
theorem failSoft_counterexample :
    (normalizeEmbedded "t" itemGoodC).isSome = true ∧
    normalizeEmbedded "t" itemBadCover = none ∧
    (scrape_tiktok_profile "u" none true envC2).emitted.map Video.ID = ["a"] :=
  ⟨rfl, rfl, rfl⟩

/-- Claim C2, amended: an item missing its cover image is not skipped
individually — it ends that source's extraction (no later item of the
source is emitted, records already emitted are kept); the run itself
still completes, saving the session state whenever a path was given and
closing the browser. -/
theorem failSoft_amended (now url : String) (path : Option String) (hd : Bool) (env : Env)
    (item : RawItem) (vm : RawVideoMeta) (vid : String)
    (rest : List RawItem) (seen : List String)
    (h1 : item.aweme_id = some vid) (h2 : vid ∉ seen)
    (h3 : item.video = some vm) (h4 : vm.zoomCover = none) :
    embeddedLoop now (item :: rest) seen = ([], seen) ∧
    (scrape_tiktok_profile url path hd env).storageSaved = path.isSome ∧
    (scrape_tiktok_profile url path hd env).browserClosed = true := by
  have hn : normalizeEmbedded now item = none :=
    normalizeEmbedded_zoomCover_none now item vm h3 h4
  refine ⟨by simp [embeddedLoop, h1, h2, hn], ?_, ?_⟩
  · cases hnav : env.nav <;> simp [scrape_tiktok_profile, hnav]
  · cases hnav : env.nav <;> simp [scrape_tiktok_profile, hnav]

/-- Witness for the amended claim C2, at the concrete bad item of the
counterexample environment. -/
theorem failSoft_amended_witness :
    embeddedLoop "t" (itemBadCover :: [itemGoodC]) [] = ([], []) ∧
    (scrape_tiktok_profile "u" (some "p") true envC2).storageSaved = (some "p").isSome ∧
    (scrape_tiktok_profile "u" (some "p") true envC2).browserClosed = true :=
  failSoft_amended "t" "u" (some "p") true envC2 itemBadCover badVideoMeta "b"
    [itemGoodC] [] rfl (by decide) rfl rfl

/-- Claim C3, counterexample: an item that is complete except for its
statsV2 sub-structure (which backs play_count, bookmarks and
repost_count) is not emitted with an "N/A" sentinel as the claim states:
its normalization raises and the run emits nothing. -/
theorem sentinel_counterexample :
    normalizeEmbedded "t" itemNoStatsV2 = none ∧
    (scrape_tiktok_profile "u" none true envC3).emitted = [] :=
  ⟨rfl, rfl⟩

/-- Claim C3, amended: absence of the statistics (embedded shape) or
stats (API shape) sub-structure — the ones backing likes, comments and
shares — is not an error: the item is emitted with "N/A" sentinels in
those fields; but absence of statsV2, which backs play_count, bookmarks
and repost_count, raises instead of producing a sentinel. -/
theorem sentinel_amended (now : String) (item : RawItem) (h : item.statsV2 = none) :
    ((normalizeEmbedded now itemNoStatistics).map fun v => (v.Likes, v.Comments, v.Shares))
      = some (CountVal.na, CountVal.na, CountVal.na) ∧
    ((normalizeApi now itemNoStats).map fun v => (v.Likes, v.Comments, v.Shares))
      = some (CountVal.na, CountVal.na, CountVal.na) ∧
    normalizeEmbedded now item = none :=
  ⟨rfl, rfl, normalizeEmbedded_statsV2_none now item h⟩

/-- Witness for the amended claim C3 at the concrete statsV2-less item. -/
theorem sentinel_amended_witness :
    ((normalizeEmbedded "t" itemNoStatistics).map fun v => (v.Likes, v.Comments, v.Shares))
      = some (CountVal.na, CountVal.na, CountVal.na) ∧
    ((normalizeApi "t" itemNoStats).map fun v => (v.Likes, v.Comments, v.Shares))
      = some (CountVal.na, CountVal.na, CountVal.na) ∧
    normalizeEmbedded "t" itemNoStatsV2 = none :=
  sentinel_amended "t" itemNoStatsV2 rfl

/-- Claim C4: in a run whose navigation succeeded, every record of the
embedded phase is emitted before any record of the intercepted phase,
and each phase emits an order-preserving subsequence of its source items
(embedded items in item-list order, intercepted items in
payload-accumulation order then item-list order). -/
theorem streaming_order (url : String) (path : Option String) (hd : Bool) (env : Env)
    (hnav : env.nav = NavOutcome.ok) :
    (scrape_tiktok_profile url path hd env).emitted
      = (embeddedPhase env).1 ++ (interceptedPhase env).1 ∧
    List.Sublist ((embeddedPhase env).1.map Video.ID)
      ((effectiveAwemeList env.embedded).map fun it => it.aweme_id.getD "N/A") ∧
    List.Sublist ((interceptedPhase env).1.map Video.ID)
      ((effectivePayloadItems env.payloads).map fun it => it.id.getD "N/A") := by
  refine ⟨by simp [scrape_tiktok_profile, hnav], ?_, ?_⟩
  · exact embeddedLoop_sublist env.now (effectiveAwemeList env.embedded) []
  · exact apiPayloadLoop_sublist env.now env.payloads (embeddedPhase env).2

/-- Witness for claim C4 at a concrete two-source environment. -/
theorem streaming_order_witness :
    (scrape_tiktok_profile "u" none true envOk).emitted
      = (embeddedPhase envOk).1 ++ (interceptedPhase envOk).1 ∧
    List.Sublist ((embeddedPhase envOk).1.map Video.ID)
      ((effectiveAwemeList envOk.embedded).map fun it => it.aweme_id.getD "N/A") ∧
    List.Sublist ((interceptedPhase envOk).1.map Video.ID)
      ((effectivePayloadItems envOk.payloads).map fun it => it.id.getD "N/A") :=
  streaming_order "u" none true envOk rfl

/-- Claim C5: when navigation never reaches network quiescence the run
ends at the 60000 ms bound of page.goto with nothing emitted, and on
that exit path the session state is still saved exactly when a path was
given and the browser is still closed. -/
theorem timeout_resilience (url : String) (path : Option String) (hd : Bool) (env : Env)
    (hnav : env.nav = NavOutcome.timeout) :
    (scrape_tiktok_profile url path hd env).emitted = [] ∧
    (scrape_tiktok_profile url path hd env).storageSaved = path.isSome ∧
    (scrape_tiktok_profile url path hd env).browserClosed = true ∧
    navigationTimeoutMs = 60000 := by
  simp [scrape_tiktok_profile, hnav, navigationTimeoutMs]

/-- Witness for claim C5 at a concrete timed-out environment with a
storage path. -/
theorem timeout_resilience_witness :
    (scrape_tiktok_profile "u" (some "p") true envTimeout).emitted = [] ∧
    (scrape_tiktok_profile "u" (some "p") true envTimeout).storageSaved = (some "p").isSome ∧
    (scrape_tiktok_profile "u" (some "p") true envTimeout).browserClosed = true ∧
    navigationTimeoutMs = 60000 :=
  timeout_resilience "u" (some "p") true envTimeout rfl

/-- Claim C6: an item carrying API-shaped statistics (stats.diggCount)
normalized by the API branch, and an item carrying HTML-shaped
statistics (statistics.digg_count) normalized by the embedded branch,
both yield a Video whose Likes field holds that count, not the
sentinel. -/
theorem schema_tolerance (now : String) (n : Nat) :
    ((normalizeEmbedded now (htmlShapedItem n)).map Video.Likes = some (CountVal.num n)) ∧
    ((normalizeApi now (apiShapedItem n)).map Video.Likes = some (CountVal.num n)) :=
  ⟨rfl, rfl⟩

/-- Claim C7: if the measured document height never changes, the scroll
loop performs at most one scroll-to-bottom action. -/
theorem pagination_single_scroll (url : String) (path : Option String) (hd : Bool)
    (env : Env) (hconst : ∀ i, env.heights i = env.heights 0) :
    (scrape_tiktok_profile url path hd env).scrollActions ≤ 1 := by
  cases hnav : env.nav with
  | timeout => simp [scrape_tiktok_profile, hnav]
  | ok =>
    have hs : (scrape_tiktok_profile url path hd env).scrollActions
        = scrollCount env.heights := by
      simp [scrape_tiktok_profile, hnav]
    rw [hs, scrollCount_unfold]
    have h0 : ¬((env.heights 0 : Int) = -1) := by omega
    have h1 : (env.heights 1 : Int) = (env.heights 0 : Int) := by
      exact_mod_cast hconst 1
    rw [if_neg h0, if_pos h1]

/-- Witness for claim C7 at a concrete constant-height environment. -/
theorem pagination_single_scroll_witness :
    (scrape_tiktok_profile "u" none true envFlat).scrollActions ≤ 1 :=
  pagination_single_scroll "u" none true envFlat (fun _ => rfl)

/-- Claim C8, counterexample: the claim says the loop stops at any
non-growing (less than or equal) measurement; with strictly decreasing
heights 100, 90, 80 the code performs all 3 scrolls, because its early
exit fires only on an exactly equal measurement. -/
theorem scroll_bound_counterexample :
    ¬ (∀ h : Nat → Nat, scrollCount h ≤ 3 ∧
        (2 ≤ scrollCount h → h 0 < h 1) ∧ (3 ≤ scrollCount h → h 1 < h 2)) := by
  intro hcl
  have h2 := (hcl fun i => 100 - 10 * i).2.1 (by decide)
  have h3 : (100 - 10 * 0 : Nat) < 100 - 10 * 1 := h2
  omega

/-- Claim C8, amended: the scroll loop performs at most 3 scroll-to-bottom
actions and exits early when a measurement is exactly equal to the
preceding one; a strictly smaller measurement does not stop it. -/
theorem scroll_bound_amended (h : Nat → Nat) :
    scrollCount h ≤ 3 ∧ (2 ≤ scrollCount h → h 1 ≠ h 0) ∧
    (3 ≤ scrollCount h → h 2 ≠ h 1) := by
  rw [scrollCount_unfold]
  have h0 : ¬((h 0 : Int) = -1) := by omega
  rw [if_neg h0]
  by_cases hB : (h 1 : Int) = (h 0 : Int)
  · rw [if_pos hB]
    exact ⟨by omega, fun hc => absurd hc (by omega), fun hc => absurd hc (by omega)⟩
  · rw [if_neg hB]
    have hB2 : h 1 ≠ h 0 := fun he => hB (by exact_mod_cast he)
    by_cases hC : (h 2 : Int) = (h 1 : Int)
    · rw [if_pos hC]
      exact ⟨by omega, fun _ => hB2, fun hc => absurd hc (by omega)⟩
    · rw [if_neg hC]
      have hC2 : h 2 ≠ h 1 := fun he => hC (by exact_mod_cast he)
      exact ⟨by omega, fun _ => hB2, fun _ => hC2⟩

/-- Witness for the amended claim C8 at strictly growing heights. -/
theorem scroll_bound_amended_witness :
    scrollCount (fun i => i) ≤ 3 ∧ ((fun i : Nat => i) 1 ≠ (fun i : Nat => i) 0) :=
  ⟨(scroll_bound_amended fun i => i).1,
   (scroll_bound_amended fun i => i).2.1 (by decide)⟩

/-- Claim C9: an intercepted item with no id key is not skipped — it is
emitted with the sentinel identifier "N/A", which is recorded in the
seen set; any later id-less item, or item genuinely identified as
"N/A", is silently dropped as a duplicate, and a run emits at most one
record with identifier "N/A". -/
theorem missing_id_sentinel (now url : String) (path : Option String) (hd : Bool)
    (env : Env) (item1 item2 : RawItem) (rest1 rest2 : List RawItem)
    (seen1 seen2 : List String) (v : Video)
    (h1 : item1.id = none) (h2 : "N/A" ∉ seen1)
    (h3 : normalizeApi now item1 = some v)
    (h4 : item2.id = none ∨ item2.id = some "N/A") (h5 : "N/A" ∈ seen2) :
    v.ID = "N/A" ∧
    apiItemLoop now (item1 :: rest1) seen1
      = (v :: (apiItemLoop now rest1 ("N/A" :: seen1)).1,
         (apiItemLoop now rest1 ("N/A" :: seen1)).2.1,
         (apiItemLoop now rest1 ("N/A" :: seen1)).2.2) ∧
    apiItemLoop now (item2 :: rest2) seen2 = apiItemLoop now rest2 seen2 ∧
    ((scrape_tiktok_profile url path hd env).emitted.filter fun w => w.ID = "N/A").length ≤ 1 := by
  refine ⟨?_, ?_, ?_, ?_⟩
  · rw [(normalizeApi_some now item1 v h3).1, h1]
    rfl
  · simp [apiItemLoop, h1, h2, h3]
  · rcases h4 with h4 | h4 <;> simp [apiItemLoop, h4, h5]
  · rw [length_filter_ID_eq_count]
    exact List.nodup_iff_count_le_one.mp (emitted_ids_nodup url path hd env) "N/A"

/-- Witness for claim C9 at a concrete id-less item. -/
theorem missing_id_sentinel_witness :
    videoNoId.ID = "N/A" ∧
    apiItemLoop "t" (itemNoId :: []) []
      = (videoNoId :: (apiItemLoop "t" [] ["N/A"]).1,
         (apiItemLoop "t" [] ["N/A"]).2.1,
         (apiItemLoop "t" [] ["N/A"]).2.2) ∧
    apiItemLoop "t" (itemNoId :: []) ["N/A"] = apiItemLoop "t" [] ["N/A"] ∧
    ((scrape_tiktok_profile "u" none true envOk).emitted.filter fun w => w.ID = "N/A").length ≤ 1 :=
  missing_id_sentinel "t" "u" none true envOk itemNoId itemNoId [] [] [] ["N/A"]
    videoNoId rfl (by decide) rfl (Or.inl rfl) (by decide)

/-- Claim C10, counterexample: video "v1" appears in both sources and
its embedded occurrence carries a "720" cover variant, yet the run
emits it with the "480" variant — the embedded occurrence raised during
normalization (missing statsV2), so the intercepted occurrence was the
one emitted. -/
theorem cover_variant_counterexample :
    itemBoth720.aweme_id = some "v1" ∧
    itemBoth480.id = some "v1" ∧
    Option.bind (Option.bind itemBoth720.video RawVideoMeta.zoomCover) RawZoomCover.v720
      = some "c720" ∧
    (scrape_tiktok_profile "u" none true envC10).emitted.map (fun w => (w.ID, w.video_cover))
      = [("v1", "c480")] :=
  ⟨rfl, rfl, rfl, rfl⟩

/-- Claim C10, amended: every record the embedded phase emits carries
the "720" zoomCover variant of its source item and every record the
intercepted phase emits carries the "480" variant; a video present in
both sources is emitted with the "720" variant provided its embedded
occurrence is reached and successfully normalized, and may otherwise be
emitted from the intercepted source with the "480" variant. -/
theorem cover_variant_amended (now : String)
    (items : List RawItem) (seen : List String) (w : Video)
    (items2 : List RawItem) (seen2 : List String) (w2 : Video)
    (hmem : w ∈ (embeddedLoop now items seen).1)
    (hmem2 : w2 ∈ (apiItemLoop now items2 seen2).1) :
    (∃ it, it ∈ items ∧ it.aweme_id = some w.ID ∧
      Option.bind (Option.bind it.video RawVideoMeta.zoomCover) RawZoomCover.v720
        = some w.video_cover) ∧
    (∃ it, it ∈ items2 ∧ it.id.getD "N/A" = w2.ID ∧
      Option.bind (Option.bind it.video RawVideoMeta.zoomCover) RawZoomCover.v480
        = some w2.video_cover) :=
  ⟨embeddedLoop_cover now items seen w hmem,
   apiItemLoop_cover now items2 seen2 w2 hmem2⟩

/-- Witness for the amended claim C10 at concrete one-item sources. -/
theorem cover_variant_amended_witness :
    (∃ it, it ∈ [itemGoodA] ∧ it.aweme_id = some videoA.ID ∧
      Option.bind (Option.bind it.video RawVideoMeta.zoomCover) RawZoomCover.v720
        = some videoA.video_cover) ∧
    (∃ it, it ∈ [itemNoId] ∧ it.id.getD "N/A" = videoNoId.ID ∧
      Option.bind (Option.bind it.video RawVideoMeta.zoomCover) RawZoomCover.v480
        = some videoNoId.video_cover) :=
  cover_variant_amended "t" [itemGoodA] [] videoA [itemNoId] [] videoNoId
    (by decide) (by decide)

end TikTok
